import Mathlib

/-!
Verification of the routing, fallback-classification and analytics core of the
RealEstateChatboat repository (agents/agent_router.py, agents/tenancy_faq_agent.py,
agents/issue_detection_agent.py).

Modelling conventions:
* Python strings that undergo character-level processing (lowercasing, stripping,
  substring search) are embedded as `List Char`; `k <:+: s` (list infix) models
  Python's substring containment `k in s`.
* The external Gemini model call is the single effectful collaborator; a call
  outcome is passed in as `Option _`: `some r` models the call returning the
  string `r`, `none` models the call raising an exception (the only failure mode
  the code distinguishes).  Methods embedding a `try/except` around that call are
  therefore total Lean functions — totality is the "never raises / no exception
  propagates" part of the corresponding claims.
* Python float confidence constants (0.7, 0.8, 1.0, 0.0) are embedded as exact
  rationals; no floating-point arithmetic is ever performed on them.
* Conversation `context` dicts only flow into prompt strings (which feed the
  opaque model call), never into any decision; they are embedded as an opaque
  association list `Ctx`.
-/

/-- Python's `str.lower()` on a character list (ASCII case mapping, as Lean's
`Char.toLower`). -/
def pyLower (s : List Char) : List Char := s.map Char.toLower

/-- Stripping all characters satisfying `p` from both ends of a list: the
semantics of Python's `str.strip()` for the predicate `p`. -/
def pyStripWhile {α : Type} (p : α → Bool) (s : List α) : List α :=
  ((s.dropWhile p).reverse.dropWhile p).reverse

/-- Python's `str.strip()` (whitespace from both ends). -/
def pyStrip (s : List Char) : List Char := pyStripWhile Char.isWhitespace s

/-- Conversation context (a dict in the source); it only ever feeds the prompt
for the external model and never influences a modelled decision. -/
abbrev Ctx := List (String × String)

namespace AgentRouter

/-- The tenancy keyword list of `AgentRouter._fallback_route`. -/
def tenancy_keywords : List (List Char) :=
  ["landlord".toList, "tenant".toList, "rent".toList, "deposit".toList, "evict".toList,
   "lease".toList, "rights".toList, "law".toList, "legal".toList]

/-- The issue keyword list of `AgentRouter._fallback_route`. -/
def issue_keywords : List (List Char) :=
  ["damage".toList, "broken".toList, "crack".toList, "leak".toList, "mold".toList,
   "repair".toList, "fix".toList, "issue".toList]

/-- `tenancy_score = sum(1 for keyword in tenancy_keywords if keyword in text_lower)`
from `AgentRouter._fallback_route`. -/
def tenancy_score (text : List Char) : Nat :=
  tenancy_keywords.countP (fun k => decide (k <:+: pyLower text))

/-- `issue_score = sum(1 for keyword in issue_keywords if keyword in text_lower)`
from `AgentRouter._fallback_route`. -/
def issue_score (text : List Char) : Nat :=
  issue_keywords.countP (fun k => decide (k <:+: pyLower text))

/-- `AgentRouter._fallback_route`: keyword-based routing used when the Gemini
call fails. -/
def _fallback_route (text : List Char) (has_image : Bool) (context : Ctx) : String :=
  if has_image = true ∨ issue_score text > tenancy_score text then "agent1"
  else if tenancy_score text > issue_score text then "agent2"
  else "router"

/-- `AgentRouter.route_request`.  `gemini` is the outcome of
`get_gemini_response` on the routing prompt: `some r` models a returned response
`r`, `none` models the call raising (any exception), in which case the
`except Exception` branch falls back to `_fallback_route`.  The parsing of the
model response follows the source: `gemini_response.strip().lower()` and then
substring checks for the label words, issue first. -/
def route_request (gemini : Option (List Char)) (text : List Char) (has_image : Bool)
    (context : Ctx) : String :=
  if has_image then "agent1"
  else
    match gemini with
    | some gemini_response =>
      let routing_decision := pyLower (pyStrip gemini_response)
      if "issue".toList <:+: routing_decision then "agent1"
      else if "tenancy".toList <:+: routing_decision then "agent2"
      else "router"
    | none => _fallback_route text has_image context

end AgentRouter

/-- `pyStripWhile p s` is an infix of `s`: stripping only removes characters
from the two ends. -/
lemma pyStripWhile_isInfix {α : Type} (p : α → Bool) (s : List α) :
    pyStripWhile p s <:+: s := by
  obtain ⟨t, ht⟩ : s.dropWhile p <:+ s := List.dropWhile_suffix p
  obtain ⟨t₂, ht₂⟩ : (s.dropWhile p).reverse.dropWhile p <:+ (s.dropWhile p).reverse :=
    List.dropWhile_suffix p
  refine ⟨t, t₂.reverse, ?_⟩
  have h3 : s.dropWhile p = pyStripWhile p s ++ t₂.reverse := by
    show s.dropWhile p = ((s.dropWhile p).reverse.dropWhile p).reverse ++ t₂.reverse
    rw [← List.reverse_append, ht₂, List.reverse_reverse]
  calc t ++ pyStripWhile p s ++ t₂.reverse
      = t ++ (pyStripWhile p s ++ t₂.reverse) := by rw [List.append_assoc]
    _ = t ++ s.dropWhile p := by rw [h3]
    _ = s := ht

/-- If the head of `c :: m` is not stripped by `p`, then the block `(c :: m) ++ v`
survives `dropWhile p` applied to anything of the form `u ++ (c :: m) ++ v`,
as a suffix. -/
lemma suffix_dropWhile_of_head_false {α : Type} (p : α → Bool) (c : α) (m v : List α)
    (hc : p c = false) :
    ∀ u : List α, (c :: m) ++ v <:+ (u ++ ((c :: m) ++ v)).dropWhile p
  | [] => by
    rw [List.nil_append, List.cons_append, List.dropWhile_cons, hc]
    exact ⟨[], by simp⟩
  | a :: u => by
    have h1 : (a :: u) ++ ((c :: m) ++ v) = a :: (u ++ ((c :: m) ++ v)) := rfl
    rw [h1, List.dropWhile_cons]
    cases hpa : p a with
    | true =>
      rw [if_pos rfl]
      exact suffix_dropWhile_of_head_false p c m v hc u
    | false =>
      rw [if_neg (by simp)]
      exact ⟨a :: u, by simp⟩

/-- Core invariance lemma: a nonempty pattern `w` none of whose characters is
the `f`-image of a strippable character occurs in `(pyStripWhile p s).map f`
whenever it occurs in `s.map f`.  (Instantiated with `p` = whitespace and
`f` = lowercasing: stripping cannot destroy an occurrence of a whitespace-free
label word.) -/
lemma infix_map_pyStripWhile_of_infix_map {α β : Type} (p : α → Bool) (f : α → β)
    (s : List α) (w : List β) (hw : w ≠ [])
    (hpf : ∀ c, p c = true → ∀ d ∈ w, f c ≠ d)
    (h : w <:+: s.map f) : w <:+: (pyStripWhile p s).map f := by
  obtain ⟨x, y, hxy⟩ := h
  obtain ⟨u₂, v, rfl, hu₂, hv⟩ :
      ∃ u₂ v, s = u₂ ++ v ∧ u₂.map f = x ++ w ∧ v.map f = y :=
    List.map_eq_append_iff.mp hxy.symm
  obtain ⟨u, m, rfl, hu, hm⟩ : ∃ u m, u₂ = u ++ m ∧ u.map f = x ∧ m.map f = w :=
    List.map_eq_append_iff.mp hu₂
  cases m with
  | nil => simp at hm; exact absurd hm hw
  | cons c m' =>
    have hfc : f c ∈ w := by
      rw [← hm]; exact List.mem_map_of_mem f (List.mem_cons_self c m')
    have hpc : p c = false := by
      cases hpc : p c with
      | true => exact absurd rfl (hpf c hpc (f c) hfc)
      | false => rfl
    have hs1 : (c :: m') ++ v <:+ ((u ++ (c :: m')) ++ v).dropWhile p := by
      rw [List.append_assoc]
      exact suffix_dropWhile_of_head_false p c m' v hpc u
    obtain ⟨u₁, hu₁⟩ := hs1
    cases hrev : (c :: m').reverse with
    | nil => simp at hrev
    | cons d t =>
      have hd : d ∈ c :: m' := by
        rw [← List.mem_reverse, hrev]; exact List.mem_cons_self d t
      have hfd : f d ∈ w := by rw [← hm]; exact List.mem_map_of_mem f hd
      have hpd : p d = false := by
        cases hpd : p d with
        | true => exact absurd rfl (hpf d hpd (f d) hfd)
        | false => rfl
      have hrw : (((u ++ (c :: m')) ++ v).dropWhile p).reverse =
          v.reverse ++ ((d :: t) ++ u₁.reverse) := by
        rw [← hu₁, ← hrev]
        simp [List.reverse_append]
      have hs2 : (d :: t) ++ u₁.reverse <:+
          ((v.reverse ++ ((d :: t) ++ u₁.reverse)).dropWhile p) :=
        suffix_dropWhile_of_head_false p d t u₁.reverse hpd v.reverse
      rw [← hrw] at hs2
      obtain ⟨z, hz⟩ := hs2
      have hstrip : pyStripWhile p ((u ++ (c :: m')) ++ v) =
          u₁ ++ (c :: m') ++ z.reverse := by
        unfold pyStripWhile
        rw [← hz]
        have hdt : (d :: t).reverse = c :: m' := by
          rw [← hrev, List.reverse_reverse]
        rw [List.reverse_cons] at hdt
        simp only [List.reverse_append, List.reverse_reverse, List.reverse_cons]
        rw [List.append_assoc, hdt]
        simp
      have hinf : c :: m' <:+: pyStripWhile p ((u ++ (c :: m')) ++ v) :=
        ⟨u₁, z.reverse, hstrip.symm⟩
      rw [← hm]
      exact hinf.map f

/-- For a nonempty pattern `w` whose characters are not lowercased whitespace,
occurrence in `strip().lower()` of a string coincides with occurrence in
`lower()` of that string. -/
lemma infix_pyLower_pyStrip_iff (w s : List Char) (hw : w ≠ [])
    (hws : ∀ c : Char, c.isWhitespace = true → ∀ d ∈ w, Char.toLower c ≠ d) :
    w <:+: pyLower (pyStrip s) ↔ w <:+: pyLower s := by
  constructor
  · intro h
    exact h.trans ((pyStripWhile_isInfix _ s).map Char.toLower)
  · exact infix_map_pyStripWhile_of_infix_map _ _ s w hw hws

/-- No whitespace character lowercases into the word `issue`. -/
lemma whitespace_toLower_notin_issue :
    ∀ c : Char, c.isWhitespace = true → ∀ d ∈ "issue".toList, Char.toLower c ≠ d := by
  intro c hc
  have hc' : ((c = ' ' ∨ c = '\t') ∨ c = '\r') ∨ c = '\n' := by
    simpa [Char.isWhitespace] using hc
  rcases hc' with ((rfl | rfl) | rfl) | rfl <;> decide

/-- No whitespace character lowercases into the word `tenancy`. -/
lemma whitespace_toLower_notin_tenancy :
    ∀ c : Char, c.isWhitespace = true → ∀ d ∈ "tenancy".toList, Char.toLower c ≠ d := by
  intro c hc
  have hc' : ((c = ' ' ∨ c = '\t') ∨ c = '\r') ∨ c = '\n' := by
    simpa [Char.isWhitespace] using hc
  rcases hc' with ((rfl | rfl) | rfl) | rfl <;> decide

/-- C1: for every input text and every context, if `has_image` is true then
`route_request` returns the issue handler `"agent1"` immediately, regardless of
the model-call outcome (`gemini` is universally quantified over success with any
response and failure), i.e. the external model is never consulted. -/
theorem route_request_image_forces_issue (gemini : Option (List Char)) (text : List Char)
    (context : Ctx) :
    AgentRouter.route_request gemini text true context = "agent1" := rfl

/-- C2: with `has_image` false and a failing model call (`gemini = none`),
`route_request` returns exactly the keyword-fallback decision: `"agent1"` when
`issue_score > tenancy_score`, `"agent2"` when `tenancy_score > issue_score`,
else `"router"`.  The embedding is a total function, which is the statement that
no exception propagates to the caller on the fallback path. -/
theorem route_request_fallback_decision (text : List Char) (context : Ctx) :
    AgentRouter.route_request none text false context =
      (if AgentRouter.issue_score text > AgentRouter.tenancy_score text then "agent1"
       else if AgentRouter.tenancy_score text > AgentRouter.issue_score text then "agent2"
       else "router") := by
  simp [AgentRouter.route_request, AgentRouter._fallback_route]

/-- C3: the Router's label parse is equivalent to: lowercase the model response
and return `"agent1"` if it contains the substring `issue`, else `"agent2"` if
it contains `tenancy`, else `"router"` (the `strip()` the code also performs
cannot affect containment of the whitespace-free label words); and, issue-check
precedence: any response containing both label words resolves to `"agent1"`. -/
theorem route_request_parse_precedence (resp text : List Char) (context : Ctx) :
    (AgentRouter.route_request (some resp) text false context =
      (if "issue".toList <:+: pyLower resp then "agent1"
       else if "tenancy".toList <:+: pyLower resp then "agent2"
       else "router")) ∧
    ("issue".toList <:+: pyLower resp → "tenancy".toList <:+: pyLower resp →
      AgentRouter.route_request (some resp) text false context = "agent1") := by
  have h1 := infix_pyLower_pyStrip_iff "issue".toList resp (by decide)
    whitespace_toLower_notin_issue
  have h2 := infix_pyLower_pyStrip_iff "tenancy".toList resp (by decide)
    whitespace_toLower_notin_tenancy
  have hmain : AgentRouter.route_request (some resp) text false context =
      (if "issue".toList <:+: pyLower resp then "agent1"
       else if "tenancy".toList <:+: pyLower resp then "agent2"
       else "router") := by
    show (if "issue".toList <:+: pyLower (pyStrip resp) then "agent1"
          else if "tenancy".toList <:+: pyLower (pyStrip resp) then "agent2"
          else "router") = _
    rw [if_congr h1 rfl (if_congr h2 rfl rfl)]
  refine ⟨hmain, fun hi _ => ?_⟩
  rw [hmain, if_pos hi]

/-- Witness for C3 at the spec's own example: a model response containing both
label words resolves to the issue handler. -/
theorem route_request_parse_precedence_witness :
    AgentRouter.route_request (some "This seems like a tenancy issue matter".toList)
      [] false [] = "agent1" :=
  (route_request_parse_precedence "This seems like a tenancy issue matter".toList [] []).2
    (by decide) (by decide)

/-- A presence count over a duplicate-free keyword list equals the cardinality
of the set of matched keywords: each keyword contributes at most 1 regardless
of how often it occurs in the text. -/
lemma countP_eq_matched_card (keys : List (List Char)) (hnd : keys.Nodup)
    (text : List Char) :
    keys.countP (fun k => decide (k <:+: pyLower text)) =
      (keys.toFinset.filter (fun k => k <:+: pyLower text)).card := by
  rw [List.countP_eq_length_filter]
  rw [← List.toFinset_card_of_nodup (hnd.filter (fun k => decide (k <:+: pyLower text)))]
  congr 1
  rw [List.toFinset_filter]
  simp

/-- C4: for every input text the fallback keyword scorer is the pair of
presence counts of the two keyword sets — `issue_score` is the number of
distinct issue-set keywords occurring as substrings of the lowercased input
(as a set cardinality, so repetition cannot contribute more than 1 per
keyword), `tenancy_score` likewise for the tenancy set — and both scores are 0
on the empty string.  (The scorer is a plain Lean function, hence pure and
deterministic.) -/
theorem fallback_scorer_distinct_presence_counts (text : List Char) :
    AgentRouter.issue_score text =
      (AgentRouter.issue_keywords.toFinset.filter (fun k => k <:+: pyLower text)).card ∧
    AgentRouter.tenancy_score text =
      (AgentRouter.tenancy_keywords.toFinset.filter (fun k => k <:+: pyLower text)).card ∧
    AgentRouter.issue_score [] = 0 ∧ AgentRouter.tenancy_score [] = 0 := by
  refine ⟨?_, ?_, by decide, by decide⟩
  · exact countP_eq_matched_card AgentRouter.issue_keywords (by decide) text
  · exact countP_eq_matched_card AgentRouter.tenancy_keywords (by decide) text

namespace AgentRouter

/-- A conversation message, restricted to the two fields that
`analyze_conversation_flow` reads (`msg.get('type')` and `msg.get('agent')`);
`agent = none` models both a missing key and a `None` value. -/
structure Msg where
  type : String
  agent : Option String
deriving DecidableEq

/-- The `agent_usage` dict: an association list preserving Python dict
insertion order. -/
abbrev Usage := List (String × Nat)

/-- The initial `agent_usage = {'agent1': 0, 'agent2': 0, 'router': 0}`,
in the source's insertion order. -/
def init_usage : Usage := [("agent1", 0), ("agent2", 0), ("router", 0)]

/-- `agent_usage[k] = agent_usage.get(k, 0) + 1`: increment in place when the
key is present, else append it with count 1 (Python dicts append new keys at
the end of the iteration order). -/
def usage_incr (u : Usage) (k : String) : Usage :=
  if u.any (fun p => p.1 == k) then
    u.map (fun p => if p.1 == k then (p.1, p.2 + 1) else p)
  else u ++ [(k, 1)]

/-- Dict lookup with default 0 (`agent_usage.get(k, 0)`; for the three initial
keys this is also `agent_usage[k]`, which is how `_determine_conversation_type`
reads them — they are always present). -/
def usage_get (u : Usage) (k : String) : Nat :=
  ((u.find? (fun p => p.1 == k)).map Prod.snd).getD 0

/-- One loop iteration of `analyze_conversation_flow`: a message is counted
iff `msg.get('type') == 'bot' and msg.get('agent')` — i.e. its type is `bot`
and its agent value is present and truthy.  `m.agent.getD ""` embeds Python
truthiness of `msg.get('agent')`: both a missing/`None` agent and an empty
string are falsy, and for a present nonempty agent the key incremented is that
agent string itself. -/
def flow_step (u : Usage) (m : Msg) : Usage :=
  if m.type == "bot" && m.agent.getD "" != "" then usage_incr u (m.agent.getD "") else u

/-- The `agent_usage` dict after the counting loop. -/
def compute_usage (messages : List Msg) : Usage :=
  messages.foldl flow_step init_usage

/-- `max(agent_usage, key=agent_usage.get)` keeps the current best and replaces
it only on a strictly greater value, hence returns the first key attaining the
maximum in iteration (= insertion) order. -/
def max_key_from (k : String) (v : Nat) : Usage → String
  | [] => k
  | (k₂, v₂) :: rest => if v₂ > v then max_key_from k₂ v₂ rest else max_key_from k v rest

/-- `max(agent_usage, key=agent_usage.get)`; `none` on an empty dict (where
Python would raise — never reached, the dict always holds the three seed keys). -/
def max_key : Usage → Option String
  | [] => none
  | (k, v) :: rest => some (max_key_from k v rest)

/-- `AgentRouter._determine_conversation_type`. -/
def _determine_conversation_type (agent_usage : Usage) : String :=
  if usage_get agent_usage "agent1" > usage_get agent_usage "agent2" then "issue_focused"
  else if usage_get agent_usage "agent2" > usage_get agent_usage "agent1" then "tenancy_focused"
  else "mixed"

/-- The record returned by `analyze_conversation_flow`. -/
structure FlowAnalysis where
  agent_usage : Usage
  total_messages : Nat
  dominant_agent : Option String
  conversation_type : String
deriving DecidableEq

/-- `AgentRouter.analyze_conversation_flow`. -/
def analyze_conversation_flow (messages : List Msg) : FlowAnalysis :=
  let agent_usage := compute_usage messages
  { agent_usage := agent_usage
    total_messages := messages.length
    dominant_agent := if messages.isEmpty then none else max_key agent_usage
    conversation_type :=
      if messages.isEmpty then "empty" else _determine_conversation_type agent_usage }

/-- The dominant-agent tie-break the code actually implements, stated over the
three counts: the first key of the insertion order (`agent1` = issue,
`agent2` = tenancy, `router`) whose count attains the maximum. -/
def first_max_in_order (a1 a2 r : Nat) : String :=
  if a1 ≥ a2 ∧ a1 ≥ r then "agent1"
  else if a2 ≥ r then "agent2"
  else "router"

end AgentRouter

/-- `usage_incr` on the three seed keys keeps the dict shape
`[agent1, agent2, router]` (with one count bumped). -/
lemma flow_step_std (A B C : Nat) (m : AgentRouter.Msg)
    (hm : m.agent.getD "agent1" ∈ (["agent1", "agent2", "router"] : List String)) :
    ∃ A₂ B₂ C₂, AgentRouter.flow_step
        [("agent1", A), ("agent2", B), ("router", C)] m =
      [("agent1", A₂), ("agent2", B₂), ("router", C₂)] := by
  unfold AgentRouter.flow_step
  cases hma : m.agent with
  | none => exact ⟨A, B, C, by simp [hma]⟩
  | some a =>
    simp only [hma, Option.getD_some] at hm ⊢
    simp only [List.mem_cons, List.mem_singleton, List.not_mem_nil, or_false] at hm
    by_cases hc : (m.type == "bot" && a != "") = true
    · rw [if_pos hc]
      rcases hm with rfl | rfl | rfl
      · exact ⟨A + 1, B, C, rfl⟩
      · exact ⟨A, B + 1, C, rfl⟩
      · exact ⟨A, B, C + 1, rfl⟩
    · rw [if_neg hc]
      exact ⟨A, B, C, rfl⟩

/-- The counting loop keeps the dict shape `[agent1, agent2, router]` when all
agent labels in the log are among the three seed keys. -/
lemma foldl_flow_step_std : ∀ (messages : List AgentRouter.Msg),
    (∀ m ∈ messages, m.agent.getD "agent1" ∈ (["agent1", "agent2", "router"] : List String)) →
    ∀ A B C, ∃ A₂ B₂ C₂,
      messages.foldl AgentRouter.flow_step [("agent1", A), ("agent2", B), ("router", C)] =
        [("agent1", A₂), ("agent2", B₂), ("router", C₂)]
  | [], _, A, B, C => ⟨A, B, C, rfl⟩
  | m :: ms, hag, A, B, C => by
    obtain ⟨A₂, B₂, C₂, hstep⟩ := flow_step_std A B C m (hag m (List.mem_cons_self m ms))
    rw [List.foldl_cons, hstep]
    exact foldl_flow_step_std ms (fun m₂ h₂ => hag m₂ (List.mem_cons_of_mem m h₂)) A₂ B₂ C₂

/-- `max(agent_usage, key=agent_usage.get)` on the standard-shaped dict is the
first key in insertion order attaining the maximal count. -/
lemma max_key_std (A B C : Nat) :
    AgentRouter.max_key [("agent1", A), ("agent2", B), ("router", C)] =
      some (AgentRouter.first_max_in_order A B C) := by
  simp only [AgentRouter.max_key, AgentRouter.max_key_from, AgentRouter.first_max_in_order]
  split_ifs <;> first | rfl | omega

/-- Reading the three seed counts back out of the standard-shaped dict. -/
lemma usage_get_std (A B C : Nat) :
    AgentRouter.usage_get [("agent1", A), ("agent2", B), ("router", C)] "agent1" = A ∧
    AgentRouter.usage_get [("agent1", A), ("agent2", B), ("router", C)] "agent2" = B ∧
    AgentRouter.usage_get [("agent1", A), ("agent2", B), ("router", C)] "router" = C :=
  ⟨rfl, rfl, rfl⟩

/-- `usage_incr` never empties the dict. -/
lemma usage_incr_ne_nil (u : AgentRouter.Usage) (k : String) (hu : u ≠ []) :
    AgentRouter.usage_incr u k ≠ [] := by
  unfold AgentRouter.usage_incr
  split
  · simpa using hu
  · simp

/-- The usage dict is never empty (it always holds its three seed keys). -/
lemma foldl_flow_step_ne_nil : ∀ (messages : List AgentRouter.Msg) (u : AgentRouter.Usage),
    u ≠ [] → messages.foldl AgentRouter.flow_step u ≠ []
  | [], u, hu => hu
  | m :: ms, u, hu => by
    rw [List.foldl_cons]
    refine foldl_flow_step_ne_nil ms _ ?_
    unfold AgentRouter.flow_step
    split
    · exact usage_incr_ne_nil u _ hu
    · exact hu

/-- A log in which no message passes the counting test leaves the usage dict
at its all-zero seed value. -/
lemma compute_usage_of_uncounted : ∀ (messages : List AgentRouter.Msg),
    (∀ m ∈ messages, (m.type == "bot" && (m.agent.getD "") != "") = false) →
    AgentRouter.compute_usage messages = AgentRouter.init_usage := by
  suffices h : ∀ (messages : List AgentRouter.Msg),
      (∀ m ∈ messages, (m.type == "bot" && (m.agent.getD "") != "") = false) →
      ∀ u : AgentRouter.Usage, messages.foldl AgentRouter.flow_step u = u from
    fun messages hm => h messages hm AgentRouter.init_usage
  intro messages
  induction messages with
  | nil => exact fun _ _ => rfl
  | cons m ms ih =>
    intro hm u
    rw [List.foldl_cons]
    have hstep : AgentRouter.flow_step u m = u := by
      have hc := hm m (List.mem_cons_self m ms)
      unfold AgentRouter.flow_step
      rw [if_neg (by simp [hc])]
    rw [hstep]
    exact ih (fun m₂ h₂ => hm m₂ (List.mem_cons_of_mem m h₂)) u

/-- `max_key` returns `none` exactly on the empty dict. -/
lemma max_key_eq_none_iff (u : AgentRouter.Usage) :
    AgentRouter.max_key u = none ↔ u = [] := by
  cases u with
  | nil => simp [AgentRouter.max_key]
  | cons p rest => simp [AgentRouter.max_key]

/-- Helper: on a non-empty log, `conversation_type` is determined by the
`agent1` and `agent2` counts alone, by the issue/tenancy/mixed rule. -/
lemma conversation_type_rule_aux (messages : List AgentRouter.Msg) (hne : messages ≠ []) :
    (AgentRouter.analyze_conversation_flow messages).conversation_type =
      (if AgentRouter.usage_get (AgentRouter.compute_usage messages) "agent1" >
          AgentRouter.usage_get (AgentRouter.compute_usage messages) "agent2"
       then "issue_focused"
       else if AgentRouter.usage_get (AgentRouter.compute_usage messages) "agent2" >
          AgentRouter.usage_get (AgentRouter.compute_usage messages) "agent1"
       then "tenancy_focused"
       else "mixed") := by
  have hie : messages.isEmpty = false := by
    cases messages with
    | nil => exact absurd rfl hne
    | cons m ms => rfl
  simp [AgentRouter.analyze_conversation_flow, hie,
    AgentRouter._determine_conversation_type]

/-- C5 counterexample: a log with one issue-handler turn and one router turn is
a router/issue tie (both counts 1), yet `dominant_agent` is `agent1` (issue),
not `router` — the claimed tie-break order (router, issue, tenancy) does not
match the code's dict insertion order (`agent1`, `agent2`, `router`). -/
theorem dominant_tie_resolves_to_issue_counterexample :
    (AgentRouter.analyze_conversation_flow
      [⟨"bot", some "agent1"⟩, ⟨"bot", some "router"⟩]).agent_usage =
        [("agent1", 1), ("agent2", 0), ("router", 1)] ∧
    (AgentRouter.analyze_conversation_flow
      [⟨"bot", some "agent1"⟩, ⟨"bot", some "router"⟩]).dominant_agent = some "agent1" ∧
    ("agent1" : String) ≠ "router" := by
  refine ⟨rfl, rfl, by decide⟩

/-- C5 (amended): on a non-empty log whose agent labels are among the three
handlers, `dominant_agent` is the first handler attaining the maximal
assistant-turn count in the dict insertion order `agent1` (issue), `agent2`
(tenancy), `router` — so an issue/router tie resolves to issue and a
tenancy/router tie resolves to tenancy. -/
theorem dominant_is_first_max_in_insertion_order (messages : List AgentRouter.Msg)
    (hne : messages ≠ [])
    (hag : ∀ m ∈ messages,
      m.agent.getD "agent1" ∈ (["agent1", "agent2", "router"] : List String)) :
    (AgentRouter.analyze_conversation_flow messages).dominant_agent =
      some (AgentRouter.first_max_in_order
        (AgentRouter.usage_get (AgentRouter.compute_usage messages) "agent1")
        (AgentRouter.usage_get (AgentRouter.compute_usage messages) "agent2")
        (AgentRouter.usage_get (AgentRouter.compute_usage messages) "router")) := by
  obtain ⟨A, B, C, hstd⟩ := foldl_flow_step_std messages hag 0 0 0
  have hcu : AgentRouter.compute_usage messages =
      [("agent1", A), ("agent2", B), ("router", C)] := hstd
  have hie : messages.isEmpty = false := by
    cases messages with
    | nil => exact absurd rfl hne
    | cons m ms => rfl
  obtain ⟨hA, hB, hC⟩ := usage_get_std A B C
  simp [AgentRouter.analyze_conversation_flow, hie, hcu, max_key_std, hA, hB, hC]

/-- Witness for C5 (amended): a single tenancy-handler bot turn makes the
tenancy handler dominant. -/
theorem dominant_is_first_max_witness :
    (AgentRouter.analyze_conversation_flow [⟨"bot", some "agent2"⟩]).dominant_agent =
      some "agent2" :=
  (dominant_is_first_max_in_insertion_order [⟨"bot", some "agent2"⟩]
    (by decide) (by decide)).trans (by decide)

/-- C6 counterexample: on the empty message list the issue and tenancy counts
are equal (the 0/0 case) yet `conversation_type` is `"empty"`, not `"mixed"` —
the claim's universal quantification over every message list fails at `[]`. -/
theorem conversation_type_empty_log_counterexample :
    AgentRouter.usage_get (AgentRouter.compute_usage []) "agent1" =
      AgentRouter.usage_get (AgentRouter.compute_usage []) "agent2" ∧
    (AgentRouter.analyze_conversation_flow []).conversation_type = "empty" ∧
    ("empty" : String) ≠ "mixed" := by
  refine ⟨rfl, rfl, by decide⟩

/-- C6 (amended): on every NON-empty message list, `conversation_type` is
`issue_focused` exactly when the issue (`agent1`) count exceeds the tenancy
(`agent2`) count, `tenancy_focused` exactly when tenancy exceeds issue, and
`mixed` otherwise (0/0 and exact ties); moreover the router count never
influences the result — any other non-empty log with the same issue and
tenancy counts (but any router count) gets the same `conversation_type`. -/
theorem conversation_type_counts_rule (messages : List AgentRouter.Msg)
    (hne : messages ≠ []) :
    ((AgentRouter.analyze_conversation_flow messages).conversation_type =
      (if AgentRouter.usage_get (AgentRouter.compute_usage messages) "agent1" >
          AgentRouter.usage_get (AgentRouter.compute_usage messages) "agent2"
       then "issue_focused"
       else if AgentRouter.usage_get (AgentRouter.compute_usage messages) "agent2" >
          AgentRouter.usage_get (AgentRouter.compute_usage messages) "agent1"
       then "tenancy_focused"
       else "mixed")) ∧
    ∀ ms : List AgentRouter.Msg, ms ≠ [] →
      AgentRouter.usage_get (AgentRouter.compute_usage ms) "agent1" =
        AgentRouter.usage_get (AgentRouter.compute_usage messages) "agent1" →
      AgentRouter.usage_get (AgentRouter.compute_usage ms) "agent2" =
        AgentRouter.usage_get (AgentRouter.compute_usage messages) "agent2" →
      (AgentRouter.analyze_conversation_flow ms).conversation_type =
        (AgentRouter.analyze_conversation_flow messages).conversation_type := by
  refine ⟨conversation_type_rule_aux messages hne, ?_⟩
  intro ms hms h1 h2
  rw [conversation_type_rule_aux ms hms, conversation_type_rule_aux messages hne, h1, h2]

/-- Witness for C6 (amended): a log holding only a router bot turn is `mixed`,
and a log holding only a user turn (same zero issue/tenancy counts, different
router count) gets the same `conversation_type`. -/
theorem conversation_type_counts_rule_witness :
    (AgentRouter.analyze_conversation_flow [⟨"bot", some "router"⟩]).conversation_type =
      "mixed" ∧
    (AgentRouter.analyze_conversation_flow [⟨"user", none⟩]).conversation_type =
      (AgentRouter.analyze_conversation_flow [⟨"bot", some "router"⟩]).conversation_type :=
  ⟨((conversation_type_counts_rule [⟨"bot", some "router"⟩] (by decide)).1).trans (by decide),
   (conversation_type_counts_rule [⟨"bot", some "router"⟩] (by decide)).2
     [⟨"user", none⟩] (by decide) (by decide) (by decide)⟩

/-- C10: on a non-empty log with no counted assistant turns, `dominant_agent`
is non-null — it is the first key (`agent1`) of the all-zero usage dict — and
`conversation_type` is `mixed`; and in general `dominant_agent` is null exactly
when the message list itself is empty, not whenever all counts are zero. -/
theorem uncounted_log_dominant_and_null_rule (messages : List AgentRouter.Msg)
    (hne : messages ≠ [])
    (hnc : ∀ m ∈ messages, (m.type == "bot" && (m.agent.getD "") != "") = false) :
    (AgentRouter.analyze_conversation_flow messages).dominant_agent = some "agent1" ∧
    (AgentRouter.analyze_conversation_flow messages).conversation_type = "mixed" ∧
    ∀ ms : List AgentRouter.Msg,
      ((AgentRouter.analyze_conversation_flow ms).dominant_agent = none ↔ ms = []) := by
  have hcu := compute_usage_of_uncounted messages hnc
  have hie : messages.isEmpty = false := by
    cases messages with
    | nil => exact absurd rfl hne
    | cons m ms => rfl
  refine ⟨?_, ?_, ?_⟩
  · simp [AgentRouter.analyze_conversation_flow, hie, hcu]
    rfl
  · simp [AgentRouter.analyze_conversation_flow, hie, hcu]
    rfl
  · intro ms
    cases hms : ms with
    | nil => simp [AgentRouter.analyze_conversation_flow]
    | cons m rest =>
      have hne₂ : AgentRouter.compute_usage (m :: rest) ≠ [] :=
        foldl_flow_step_ne_nil (m :: rest) AgentRouter.init_usage (by simp [AgentRouter.init_usage])
      simp only [AgentRouter.analyze_conversation_flow, List.isEmpty_cons,
        if_neg Bool.false_ne_true, max_key_eq_none_iff]
      constructor
      · intro h; exact absurd h hne₂
      · intro h; exact absurd h (by simp)

/-- Witness for C10: a log with a single user turn. -/
theorem uncounted_log_dominant_witness :
    (AgentRouter.analyze_conversation_flow [⟨"user", none⟩]).dominant_agent =
      some "agent1" ∧
    (AgentRouter.analyze_conversation_flow [⟨"user", none⟩]).conversation_type = "mixed" :=
  ⟨(uncounted_log_dominant_and_null_rule [⟨"user", none⟩] (by decide) (by decide)).1,
   (uncounted_log_dominant_and_null_rule [⟨"user", none⟩] (by decide) (by decide)).2.1⟩

namespace TenancyFAQAgent

/-- The fixed apology string of `TenancyFAQAgent.process_request`'s
`except` branch. -/
def apology : String :=
  "Sorry, I couldn't process your request at the moment. Please try again later."

/-- `TenancyFAQAgent._parse_gemini_response`: the whole response is the text,
with fixed confidence 0.8. -/
def _parse_gemini_response (response : String) : String × ℚ := (response, 8 / 10)

/-- `TenancyFAQAgent.process_request`.  `gemini` is the outcome of
`get_gemini_response` on the built prompt (`some` = returned string, `none` =
raised); the prompt construction itself is pure string formatting feeding the
opaque model call, so it is not modelled separately.  The `except` branch
prints the error and returns the apology with confidence 0.0; the embedding's
totality is the "never raises" part of the claim. -/
def process_request (gemini : Option String) (text : String) (location : Option String)
    (context : Ctx) : String × ℚ :=
  match gemini with
  | some gemini_response => _parse_gemini_response gemini_response
  | none => (apology, 0)

end TenancyFAQAgent

/-- C7: for every text, location and context, the Tenancy Generator's
`process_request` is total (never raises); on model success it returns the raw
model output with fixed confidence 0.8, and on model failure it returns the
fixed apology string with confidence 0.0. -/
theorem tenancy_process_request_total_contract (text : String) (location : Option String)
    (context : Ctx) :
    (∀ r : String, TenancyFAQAgent.process_request (some r) text location context =
      (r, (8 : ℚ) / 10)) ∧
    TenancyFAQAgent.process_request none text location context =
      (TenancyFAQAgent.apology, 0) :=
  ⟨fun _ => rfl, rfl⟩

namespace IssueDetectionAgent

/-- The generic follow-up questions for unknown issue types. -/
def generic_questions : List String :=
  ["Can you describe the issue in more detail?",
   "When did you first notice this problem?",
   "Has the issue changed or worsened recently?"]

/-- The three safety-escalation questions appended when severity is severe. -/
def severe_questions : List String :=
  ["Do you need emergency professional assistance?",
   "Is the issue affecting other areas of the property?",
   "Are there any safety concerns for occupants?"]

/-- The `questions_db` mapping of `IssueDetectionAgent.get_follow_up_questions`. -/
def questions_db (issue_type : String) : Option (List String) :=
  if issue_type = "water_damage" then some
    ["Is the water damage still actively spreading?",
     "Can you locate the source of the water?",
     "Is there a musty odor in the area?",
     "How long has this damage been present?"]
  else if issue_type = "structural_damage" then some
    ["Are the cracks getting larger over time?",
     "Do doors or windows stick in this area?",
     "Is the crack wider than a coin?",
     "Are there multiple cracks in the same area?"]
  else if issue_type = "mold_growth" then some
    ["What color is the growth you're seeing?",
     "Is there a musty smell in the room?",
     "Is the area frequently damp or humid?",
     "How large is the affected area?"]
  else if issue_type = "electrical_issues" then some
    ["Are circuit breakers tripping frequently?",
     "Do you smell burning or see sparks?",
     "Are outlets warm to the touch?",
     "Do lights flicker when appliances turn on?"]
  else if issue_type = "plumbing_issues" then some
    ["Is water pressure affected throughout the house?",
     "Can you hear water running when all taps are off?",
     "Is the issue getting worse over time?",
     "Are multiple fixtures affected?"]
  else if issue_type = "cosmetic_damage" then some
    ["Is the damage affecting the underlying material?",
     "How large is the affected area?",
     "Is the damage spreading or stable?",
     "Do you know what caused the damage?"]
  else none

/-- `IssueDetectionAgent.get_follow_up_questions`: base list from the db (the
generic list for unknown types), the three severe questions appended when
severity is `severe`, then truncation to 5 (`base_questions[:5]`). -/
def get_follow_up_questions (issue_type severity : String) : List String :=
  let base_questions := (questions_db issue_type).getD generic_questions
  let extended := if severity = "severe" then base_questions ++ severe_questions
                  else base_questions
  extended.take 5

end IssueDetectionAgent

/-- Every base question list (the six known issue types and the generic
fallback) has at most 5 entries, so non-severe truncation is the identity. -/
lemma base_questions_length_le (issue_type : String) :
    ((IssueDetectionAgent.questions_db issue_type).getD
      IssueDetectionAgent.generic_questions).length ≤ 5 := by
  unfold IssueDetectionAgent.questions_db
  split_ifs <;> decide

/-- C8: `get_follow_up_questions` always returns at most 5 questions; for a
non-severe severity it returns exactly the base list (db entry, or the fixed
3-question generic list for unknown types, untruncated since every base list
fits in 5); for severe severity it returns the base list with the 3 escalation
questions appended, truncated to 5 — base prefix first, severity suffix after;
in particular `('water_damage', 'severe')` yields exactly 5 questions whose
first 4 are the water-damage base list and whose last is an escalation
question. -/
theorem follow_up_questions_contract (issue_type severity : String) :
    (IssueDetectionAgent.get_follow_up_questions issue_type severity).length ≤ 5 ∧
    (severity ≠ "severe" →
      IssueDetectionAgent.get_follow_up_questions issue_type severity =
        (IssueDetectionAgent.questions_db issue_type).getD
          IssueDetectionAgent.generic_questions) ∧
    (severity = "severe" →
      IssueDetectionAgent.get_follow_up_questions issue_type severity =
        (((IssueDetectionAgent.questions_db issue_type).getD
          IssueDetectionAgent.generic_questions) ++
            IssueDetectionAgent.severe_questions).take 5) ∧
    (IssueDetectionAgent.get_follow_up_questions "water_damage" "severe").length = 5 ∧
    (IssueDetectionAgent.get_follow_up_questions "water_damage" "severe").take 4 =
      (IssueDetectionAgent.questions_db "water_damage").getD
        IssueDetectionAgent.generic_questions ∧
    (IssueDetectionAgent.get_follow_up_questions "water_damage" "severe").getLast? =
      some "Do you need emergency professional assistance?" ∧
    "Do you need emergency professional assistance?" ∈
      IssueDetectionAgent.severe_questions := by
  refine ⟨?_, ?_, ?_, by decide, by decide, by decide, by decide⟩
  · unfold IssueDetectionAgent.get_follow_up_questions
    simp [List.length_take]
  · intro hs
    simp only [IssueDetectionAgent.get_follow_up_questions]
    rw [if_neg hs]
    exact List.take_of_length_le (base_questions_length_le issue_type)
  · intro hs
    simp only [IssueDetectionAgent.get_follow_up_questions]
    rw [if_pos hs]

/-- Witness for C8: a known issue type with non-severe severity returns its
base list unchanged; the severe water-damage query returns the claimed 5. -/
theorem follow_up_questions_witness :
    IssueDetectionAgent.get_follow_up_questions "mold_growth" "minor" =
      (IssueDetectionAgent.questions_db "mold_growth").getD
        IssueDetectionAgent.generic_questions ∧
    IssueDetectionAgent.get_follow_up_questions "water_damage" "severe" =
      (((IssueDetectionAgent.questions_db "water_damage").getD
        IssueDetectionAgent.generic_questions) ++
          IssueDetectionAgent.severe_questions).take 5 :=
  ⟨(follow_up_questions_contract "mold_growth" "minor").2.1 (by decide),
   (follow_up_questions_contract "water_damage" "severe").2.2.1 rfl⟩

namespace AgentRouter

/-- The fixed clarification prompts of
`AgentRouter.generate_clarification_response`. -/
def clarification_responses : List String :=
  ["I'm not sure if you need help with a property issue or a tenancy question. Can you please clarify?",
   "To assist you better, could you specify if your query is about a problem with a property or about rental/tenancy matters?",
   "Are you asking about a property issue or a question about tenancy laws? Please tell me more."]

/-- `AgentRouter.generate_clarification_response`.  The source picks
`random.choice(responses)`; the RNG draw is modelled by the `choice` index
(reduced mod the list length), so every reachable output is covered by
quantifying over `choice`.  No model-call outcome parameter appears because the
method never invokes the external model.  Confidence is the fixed 1.0. -/
def generate_clarification_response (choice : Nat) (text : String) (context : Ctx) :
    String × ℚ :=
  (clarification_responses.get
    ⟨choice % clarification_responses.length, Nat.mod_lt choice (by decide)⟩, 1)

end AgentRouter

/-- C9: for every RNG draw, input text and context, the Clarifier returns a
pair whose first component is one of its three fixed clarification prompts and
whose second component is confidence 1.0; its embedding takes no model-call
outcome because it never invokes the external model. -/
theorem clarification_response_fixed_set (choice : Nat) (text : String) (context : Ctx) :
    (AgentRouter.generate_clarification_response choice text context).1 ∈
      AgentRouter.clarification_responses ∧
    (AgentRouter.generate_clarification_response choice text context).2 = 1 :=
  ⟨List.get_mem AgentRouter.clarification_responses _ _, rfl⟩
